import Mathlib

/-!
Shallow embedding of the keycloak-proxy request pipeline
(src/middleware.go and src/handlers.go).

Conventions of the embedding:
* a JWT travels in its encoded string form; the external verifier, the
  IdP exchanges and the cookie codec are oracle parameters of each
  function, so a theorem quantifying over the oracle speaks about every
  behaviour of those collaborators;
* instants and durations are integers counting seconds (240 hours is
  864000 seconds);
* an effectful handler returns a record of its observable outcome: the
  final action on the response plus the cookie and store mutations it
  performed on the way.

Helpers that the middleware calls but whose bodies are not part of the
embedded sources (hasRoles, isAudience, isExpired, accessForbidden,
redirectToAuthorization, redirectToURL) are modelled from the spec and
say so in their doc comments.
-/

namespace KP

/-- Failure of verifyToken; ErrAccessTokenExpired is the distinguished
sentinel the middleware compares against. -/
inductive VerifyError where
  | accessTokenExpired
  | signatureInvalid
  | issuerInvalid
  | audienceInvalid
  deriving DecidableEq, Repr

/-- Failure of getRefreshedToken; ErrRefreshTokenExpired is the case the
middleware switches on. -/
inductive RefreshError where
  | refreshTokenExpired
  | hardFailure
  deriving DecidableEq, Repr

/-- A JSON claim value, as far as jose.Claims.StringClaim distinguishes
them: a string, or anything that is not a string. -/
inductive ClaimValue where
  | str (s : String)
  | nonString
  deriving DecidableEq, Repr

/-- The identity projection (the userContext of the source) attached to
the request context by the authentication middleware. -/
structure userContext where
  token : String
  expiresAt : Int := 0
  id : String := ""
  name : String := ""
  email : String := ""
  roles : List String := []
  audience : List String := []
  claims : List (String × ClaimValue) := []
  deriving DecidableEq, Repr

/-- Modelled from the spec: userContext.isExpired lives in a source file
that is not under src/ (usercontext.go); the spec reads "the identity's
expiry is in the past". -/
def userContext.isExpired (u : userContext) (now : Int) : Bool :=
  u.expiresAt < now

/-- A protected resource descriptor (config.go of the repository). -/
structure Resource where
  URL : String := ""
  Methods : List String := []
  Roles : List String := []
  WhiteListed : Bool := false
  deriving DecidableEq, Repr

/-- The configuration switches read by the embedded code. MatchClaims
pairs a claim name with its compiled regular expression, embedded as the
string predicate the compiled matcher computes. -/
structure Config where
  ClientID : String := ""
  SkipTokenVerification : Bool := false
  EnableRefreshTokens : Bool := false
  EnableLoginHandler : Bool := false
  NoRedirects : Bool := false
  RedirectionURL : String := ""
  EncryptionKey : String := ""
  SignInPage : String := ""
  Scopes : List String := []
  MatchClaims : List (String × (String → Bool)) := []

/-- What a handler or middleware finally does with the request: an empty
response with a status code, a redirect, a rendered sign-in page, or
passing the request (with its context identity) to the next handler. -/
inductive HandlerAction where
  | status (code : Nat)
  | redirect (code : Nat) (location : String)
  | render (code : Nat) (authURL : String)
  | upstream (user : userContext)
  deriving DecidableEq, Repr

/-- Modelled from the spec: redirectToAuthorization is not under src/;
the spec reads "middleware converts ... into either a 307 redirect to
/oauth/authorize?state=... or a 401 if NoRedirects". -/
def redirectToAuthorization (cfg : Config) : HandlerAction :=
  if cfg.NoRedirects then .status 401 else .redirect 307 "/oauth/authorize"

/-- Modelled from the spec: accessForbidden is not under src/; the spec
reads "Denials produce accessForbidden: either redirect to the authorize
endpoint (default) or return 403 when NoRedirects is set", with the
redirect status 307 per the spec's testable properties. -/
def accessForbidden (cfg : Config) : HandlerAction :=
  if cfg.NoRedirects then .status 403 else .redirect 307 "/oauth/authorize"

/-- The external calls the authentication middleware makes, as oracles:
session extraction, token verification, refresh-token retrieval (store
or cookie), the IdP refresh exchange, and the cookie-lifetime helper. -/
structure AuthOracle where
  getIdentity : Except Unit userContext
  verifyToken : String → Option VerifyError
  retrieveRefreshToken : Except Unit String
  getRefreshedToken : String → Except RefreshError String
  getAccessCookieExpiration : String → String → Int
  useStore : Bool := false

/-- Observable outcome of one pass of the authentication middleware:
the action taken, whether clearAllCookies ran, the access-token cookie
dropped by the silent-refresh branch (value and lifetime), whether the
refresh exchange with the IdP was attempted, and whether the
fire-and-forget store update was launched. -/
structure AuthOutcome where
  action : HandlerAction
  clearedAllCookies : Bool := false
  droppedAccessCookie : Option (String × Int) := none
  refreshExchangeAttempted : Bool := false
  storeUpdateLaunched : Bool := false
  deriving DecidableEq, Repr

/-- authenticationMiddleware (src/middleware.go lines 82-204), embedded
step for step: extract the identity (redirect on failure), attach it to
the context, skip verification when configured (still rejecting expired
sessions), otherwise verify; a verification error other than
ErrAccessTokenExpired is an immediate accessForbidden; on expiry, when
refresh is enabled, retrieve the refresh token, exchange it with the
IdP (clearing all cookies when the refresh token itself has expired),
drop the refreshed access-token cookie, optionally update the store,
and pass the re-tokened identity to the next handler. -/
def authenticationMiddleware (cfg : Config) (o : AuthOracle) (now : Int) : AuthOutcome :=
  match o.getIdentity with
  | .error _ => { action := redirectToAuthorization cfg }
  | .ok user =>
    if cfg.SkipTokenVerification then
      if user.isExpired now then
        { action := redirectToAuthorization cfg }
      else
        { action := .upstream user }
    else
      match o.verifyToken user.token with
      | none => { action := .upstream user }
      | some err =>
        if err ≠ VerifyError.accessTokenExpired then
          { action := accessForbidden cfg }
        else if cfg.EnableRefreshTokens = false then
          { action := redirectToAuthorization cfg }
        else
          match o.retrieveRefreshToken with
          | .error _ => { action := redirectToAuthorization cfg }
          | .ok refresh =>
            match o.getRefreshedToken refresh with
            | .error e =>
              { action := redirectToAuthorization cfg
                clearedAllCookies := e = RefreshError.refreshTokenExpired
                refreshExchangeAttempted := true }
            | .ok token =>
              { action := .upstream { user with token := token }
                droppedAccessCookie :=
                  some (token, o.getAccessCookieExpiration token refresh)
                refreshExchangeAttempted := true
                storeUpdateLaunched := o.useStore }

/-- Modelled from the spec: hasRoles is not under src/ (utils.go); the
spec reads "the identity's roles must contain all of them (AND
semantics)". -/
def hasRoles (required userRoles : List String) : Bool :=
  required.all fun r => userRoles.contains r

/-- Modelled from the spec: userContext.isAudience is not under src/;
the spec reads "if clientID is configured and the identity's audience
set does not contain it, deny". -/
def userContext.isAudience (u : userContext) (aud : String) : Bool :=
  u.audience.contains aud

/-- Result of jose.Claims.StringClaim, which in Go returns
(value, found, err): the claim is absent, present but not a string, or
present as a string. -/
inductive StringClaimResult where
  | missing
  | notString
  | value (s : String)
  deriving DecidableEq, Repr

/-- The go-oidc jose.Claims.StringClaim contract on the embedded claim
mapping: absent names report missing, non-string values report an
extraction error, string values are returned. -/
def StringClaim (claims : List (String × ClaimValue)) (name : String) : StringClaimResult :=
  match claims.lookup name with
  | none => .missing
  | some (.str s) => .value s
  | some .nonString => .notString

/-- One (claimName, matcher) admission check of the middleware's claim
loop: the claim must be present as a string and the matcher must accept
it; an extraction error, a missing claim and a non-matching value all
fail. -/
def claimOK (user : userContext) (claimName : String) (m : String → Bool) : Bool :=
  match StringClaim user.claims claimName with
  | .value s => m s
  | .missing => false
  | .notString => false

/-- admissionMiddleware (src/middleware.go lines 207-294): audience
check, then the resource-roles check, then the claim-matching loop
(the source returns accessForbidden at the first failing claim, which
agrees with failing when not all claim checks pass), else pass the
request on. -/
def admissionMiddleware (cfg : Config) (resource : Resource) (user : userContext) : HandlerAction :=
  if cfg.ClientID ≠ "" ∧ user.isAudience cfg.ClientID = false then
    accessForbidden cfg
  else if resource.Roles.length > 0 ∧ hasRoles resource.Roles user.roles = false then
    accessForbidden cfg
  else if (cfg.MatchClaims.all fun p => claimOK user p.1 p.2) = false then
    accessForbidden cfg
  else
    .upstream user

/-- defaultTo (utils.go of the repository, used by getRedirectionURL):
the first string when it is not empty, else the second. -/
def defaultTo (v d : String) : String :=
  if v ≠ "" then v else d

/-- The request fields getRedirectionURL reads: the TLS state of the
connection, the Host, and the two forwarded headers ("" = absent). -/
structure Request where
  isTLS : Bool := false
  host : String := ""
  xForwardedProto : String := ""
  xForwardedHost : String := ""
  deriving DecidableEq, Repr

/-- getRedirectionURL (src/handlers.go lines 38-57), embedded verbatim:
when RedirectionURL is unset the scheme defaults to "http" and is then
set to "https" when the connection is NOT TLS (the source's condition,
reproduced as written), forwarded headers take precedence, and
"/oauth/callback" is appended. -/
def getRedirectionURL (cfg : Config) (req : Request) : String :=
  if cfg.RedirectionURL = "" then
    let scheme := if req.isTLS = false then "https" else "http"
    defaultTo req.xForwardedProto scheme ++ "://" ++
      defaultTo req.xForwardedHost req.host ++ "/oauth/callback"
  else
    cfg.RedirectionURL ++ "/oauth/callback"

/-- The token bundle the IdP returns from a code exchange or a password
grant (oauth2.TokenResponse as the handlers read it). -/
structure TokenResponse where
  IDToken : String := ""
  AccessToken : String := ""
  RefreshToken : String := ""
  Scope : String := ""
  Expires : Int := 0
  deriving DecidableEq, Repr

/-- The identity projection parseToken yields alongside the decoded
token, as far as the handlers read it. -/
structure TokenIdentity where
  expiresAt : Int := 0
  email : String := ""
  deriving DecidableEq, Repr

/-- containedIn (utils.go, not under src/): membership of a string in a
list, as the authorization handler uses it on the configured scopes. -/
def containedIn (value : String) (xs : List String) : Bool :=
  xs.contains value

/-- The external calls of the authorization handler: OAuth client
creation and the client's AuthCodeURL (from state and access type). -/
structure AuthzOracle where
  getOAuthClient : Except Unit Unit
  authCodeURL : String → String → String

/-- oauthAuthorizationHandler (src/handlers.go lines 60-98): 406 when
token verification is skipped, 500 when the OAuth client cannot be
built, else redirect to the IdP authorize URL (with access type
"offline" when that scope is configured), or render the custom sign-in
page when one is configured. The 307 redirect status and the sign-in
page test are modelled from the spec (redirectToURL and
hasCustomSignInPage are not under src/). -/
def oauthAuthorizationHandler (cfg : Config) (o : AuthzOracle) (stateParam : String) : HandlerAction :=
  if cfg.SkipTokenVerification then
    .status 406
  else
    match o.getOAuthClient with
    | .error _ => .status 500
    | .ok _ =>
      let accessType := if containedIn "offline" cfg.Scopes then "offline" else ""
      let authURL := o.authCodeURL stateParam accessType
      if cfg.SignInPage ≠ "" then .render 200 authURL
      else .redirect 307 authURL

/-- The external calls of the callback handler: OAuth client creation,
the code exchange, the token codec (parse returns the decoded token with
its identity projection), verification, the cookie-vault encryption, the
access-cookie lifetime helper, the store switch, and base64 decoding of
the state parameter. -/
structure CallbackOracle where
  getOAuthClient : Except Unit Unit
  exchangeCode : String → Except Unit TokenResponse
  parseToken : String → Except Unit (String × TokenIdentity)
  verifyToken : String → Option VerifyError
  encodeText : String → String → Except Unit String
  getAccessCookieExpiration : String → String → Int
  useStore : Bool := false
  decodeBase64 : String → Except Unit String

/-- Observable outcome of the callback handler: the response action and
the cookie and store mutations performed before it. -/
structure CallbackOutcome where
  action : HandlerAction
  droppedAccessCookie : Option (String × Int) := none
  droppedRefreshCookie : Option (String × Int) := none
  storedRefreshToken : Option (String × String) := none
  deriving DecidableEq, Repr

/-- oauthCallbackHandler (src/handlers.go lines 101-205): 406 when
verification is skipped, 400 on a missing code, 500 when the client
cannot be built, accessForbidden on exchange, ID-token parse or
verification failure; the access token becomes the session token when
it parses, else the ID token does; with refresh tokens enabled and one
present, the refresh token is encrypted (500 on failure), the access
cookie lifetime comes from getAccessCookieExpiration, and the encrypted
blob goes to the store or to a refresh cookie whose lifetime is the
refresh JWT's expiry when it parses and 240 hours (864000 seconds)
otherwise; without the refresh branch the access cookie lives until the
identity's expiry; finally redirect to the base64-decoded state
(default "/"). -/
def oauthCallbackHandler (cfg : Config) (o : CallbackOracle) (now : Int)
    (code stateParam : String) : CallbackOutcome :=
  if cfg.SkipTokenVerification then
    { action := .status 406 }
  else if code = "" then
    { action := .status 400 }
  else
    match o.getOAuthClient with
    | .error _ => { action := .status 500 }
    | .ok _ =>
      match o.exchangeCode code with
      | .error _ => { action := accessForbidden cfg }
      | .ok resp =>
        match o.parseToken resp.IDToken with
        | .error _ => { action := accessForbidden cfg }
        | .ok idPair =>
          match o.verifyToken idPair.1 with
          | some _ => { action := accessForbidden cfg }
          | none =>
            let pair := match o.parseToken resp.AccessToken with
              | .error _ => idPair
              | .ok accessPair => accessPair
            let state := if stateParam = "" then "/"
              else match o.decodeBase64 stateParam with
                | .error _ => "/"
                | .ok s => s
            if cfg.EnableRefreshTokens ∧ resp.RefreshToken ≠ "" then
              match o.encodeText resp.RefreshToken cfg.EncryptionKey with
              | .error _ => { action := .status 500 }
              | .ok encrypted =>
                let access :=
                  some (pair.1, o.getAccessCookieExpiration pair.1 resp.RefreshToken)
                if o.useStore then
                  { action := .redirect 307 state
                    droppedAccessCookie := access
                    storedRefreshToken := some (pair.1, encrypted) }
                else
                  match o.parseToken resp.RefreshToken with
                  | .error _ =>
                    { action := .redirect 307 state
                      droppedAccessCookie := access
                      droppedRefreshCookie := some (encrypted, 864000) }
                  | .ok refreshPair =>
                    { action := .redirect 307 state
                      droppedAccessCookie := access
                      droppedRefreshCookie :=
                        some (encrypted, refreshPair.2.expiresAt - now) }
            else
              { action := .redirect 307 state
                droppedAccessCookie := some (pair.1, pair.2.expiresAt - now) }

/-- Failure of the password grant: the oauth2 invalid_grant error the
login handler tests for, or any other token-endpoint failure. -/
inductive GrantError where
  | invalidGrant
  | otherFailure
  deriving DecidableEq, Repr

/-- The external calls of the login handler: OAuth client creation, the
password grant, and the token codec. -/
structure LoginOracle where
  oauthClient : Except Unit Unit
  userCredsToken : String → String → Except GrantError TokenResponse
  parseToken : String → Except Unit TokenIdentity

/-- Observable outcome of the login handler: the status code, the JSON
token body when one was written, and the access cookie dropped. -/
structure LoginOutcome where
  status : Nat
  body : Option TokenResponse := none
  droppedAccessCookie : Option (String × Int) := none
  deriving DecidableEq, Repr

/-- loginHandler (src/handlers.go lines 208-264): 501 when the handler
is disabled, 400 when username or password is missing, 500 when the
OAuth client cannot be built, 401 when the password grant fails with
invalid_grant and 500 on any other grant failure, 501 when the granted
access token cannot be decoded; on success the access cookie is dropped
with the identity's remaining lifetime and the token bundle is returned
as JSON with status 200. -/
def loginHandler (cfg : Config) (o : LoginOracle) (username password : String)
    (now : Int) : LoginOutcome :=
  if cfg.EnableLoginHandler = false then
    { status := 501 }
  else if username = "" ∨ password = "" then
    { status := 400 }
  else
    match o.oauthClient with
    | .error _ => { status := 500 }
    | .ok _ =>
      match o.userCredsToken username password with
      | .error GrantError.invalidGrant => { status := 401 }
      | .error GrantError.otherFailure => { status := 500 }
      | .ok token =>
        match o.parseToken token.AccessToken with
        | .error _ => { status := 501 }
        | .ok identity =>
          { status := 200
            body := some token
            droppedAccessCookie :=
              some (token.AccessToken, identity.expiresAt - now) }

/-- expirationHandler (src/handlers.go lines 366-378): 401 when no
identity can be extracted from the request, 401 when the identity has
expired, 200 otherwise. -/
def expirationHandler (getIdentity : Except Unit userContext) (now : Int) : Nat :=
  match getIdentity with
  | .error _ => 401
  | .ok user => if user.isExpired now then 401 else 200

theorem redirectToAuthorization_ne_upstream (cfg : Config) (u : userContext) :
    redirectToAuthorization cfg ≠ HandlerAction.upstream u := by
  unfold redirectToAuthorization
  by_cases h : cfg.NoRedirects <;> simp [h]

theorem accessForbidden_ne_upstream (cfg : Config) (u : userContext) :
    accessForbidden cfg ≠ HandlerAction.upstream u := by
  unfold accessForbidden
  by_cases h : cfg.NoRedirects <;> simp [h]

/-- C2: in the authentication middleware, every token whose verification
fails with any error other than AccessTokenExpired (signature, issuer,
or structural failure) is hard-rejected via accessForbidden and no
refresh exchange is attempted. -/
theorem C2_hard_reject (cfg : Config) (o : AuthOracle) (now : Int)
    (user : userContext) (err : VerifyError)
    (hskip : cfg.SkipTokenVerification = false)
    (hid : o.getIdentity = .ok user)
    (hverify : o.verifyToken user.token = some err)
    (herr : err ≠ VerifyError.accessTokenExpired) :
    authenticationMiddleware cfg o now = { action := accessForbidden cfg } ∧
    (authenticationMiddleware cfg o now).refreshExchangeAttempted = false := by
  unfold authenticationMiddleware
  rw [hid]
  simp [hskip, hverify, herr]

def cfgC2 : Config := {}

def userC2 : userContext := { token := "badtoken" }

def oC2 : AuthOracle :=
  { getIdentity := .ok userC2
    verifyToken := fun _ => some VerifyError.signatureInvalid
    retrieveRefreshToken := .error ()
    getRefreshedToken := fun _ => .error RefreshError.hardFailure
    getAccessCookieExpiration := fun _ _ => 0 }

/-- C2 witness: a concrete oracle whose token fails verification with a
signature error is rejected without a refresh exchange. -/
theorem C2_hard_reject_witness :
    authenticationMiddleware cfgC2 oC2 0 = { action := accessForbidden cfgC2 } ∧
    (authenticationMiddleware cfgC2 oC2 0).refreshExchangeAttempted = false :=
  C2_hard_reject cfgC2 oC2 0 userC2 VerifyError.signatureInvalid rfl rfl rfl
    (by decide)

/-- C5 (as amended): when the silent-refresh exchange fails the
middleware always redirects to the authorization endpoint, but it clears
the session cookies only when the failure is RefreshTokenExpired; any
other (hard) failure redirects without clearing. -/
theorem C5_exchange_failure (cfg : Config) (o : AuthOracle) (now : Int)
    (user : userContext) (refresh : String) (e : RefreshError)
    (hskip : cfg.SkipTokenVerification = false)
    (hid : o.getIdentity = .ok user)
    (hverify : o.verifyToken user.token = some VerifyError.accessTokenExpired)
    (hrefresh : cfg.EnableRefreshTokens = true)
    (hret : o.retrieveRefreshToken = .ok refresh)
    (hex : o.getRefreshedToken refresh = .error e) :
    (authenticationMiddleware cfg o now).action = redirectToAuthorization cfg ∧
    ((authenticationMiddleware cfg o now).clearedAllCookies = true ↔
      e = RefreshError.refreshTokenExpired) := by
  unfold authenticationMiddleware
  rw [hid]
  simp [hskip, hverify, hrefresh, hret, hex]

def cfgC5 : Config := { EnableRefreshTokens := true }

def userC5 : userContext := { token := "expiredtok" }

def oC5 : AuthOracle :=
  { getIdentity := .ok userC5
    verifyToken := fun _ => some VerifyError.accessTokenExpired
    retrieveRefreshToken := .ok "refreshblob"
    getRefreshedToken := fun _ => .error RefreshError.hardFailure
    getAccessCookieExpiration := fun _ _ => 0 }

/-- C5 counterexample: a concrete hard (non-expired) failure of the
refresh exchange redirects but does NOT clear the session cookies,
refuting the claim that every exchange failure clears them. -/
theorem C5_counterexample :
    oC5.getRefreshedToken "refreshblob" = .error RefreshError.hardFailure ∧
    (authenticationMiddleware cfgC5 oC5 0).action = redirectToAuthorization cfgC5 ∧
    (authenticationMiddleware cfgC5 oC5 0).clearedAllCookies = false :=
  ⟨rfl, rfl, rfl⟩

def oC5e : AuthOracle :=
  { getIdentity := .ok userC5
    verifyToken := fun _ => some VerifyError.accessTokenExpired
    retrieveRefreshToken := .ok "refreshblob"
    getRefreshedToken := fun _ => .error RefreshError.refreshTokenExpired
    getAccessCookieExpiration := fun _ _ => 0 }

/-- C5 witness: on a concrete RefreshTokenExpired failure the middleware
redirects and does clear the cookies. -/
theorem C5_exchange_failure_witness :
    (authenticationMiddleware cfgC5 oC5e 0).action = redirectToAuthorization cfgC5 ∧
    ((authenticationMiddleware cfgC5 oC5e 0).clearedAllCookies = true ↔
      RefreshError.refreshTokenExpired = RefreshError.refreshTokenExpired) :=
  C5_exchange_failure cfgC5 oC5e 0 userC5 "refreshblob"
    RefreshError.refreshTokenExpired rfl rfl rfl rfl rfl rfl

/-- C1 (as amended): with SkipTokenVerification off, every request the
authentication middleware passes to the next handler carries an identity
whose token either passed verifyToken, or was produced by a successful
silent-refresh exchange entered after verifyToken reported
AccessTokenExpired on the presented token (the refreshed token itself is
not re-verified); consequently, when verification fails and silent
refresh does not succeed, the next handler is never invoked. -/
theorem C1_verified_or_refreshed (cfg : Config) (o : AuthOracle) (now : Int)
    (user : userContext)
    (hskip : cfg.SkipTokenVerification = false)
    (hup : (authenticationMiddleware cfg o now).action = HandlerAction.upstream user) :
    o.verifyToken user.token = none ∨
    ∃ u0 refresh, o.getIdentity = .ok u0 ∧
      o.verifyToken u0.token = some VerifyError.accessTokenExpired ∧
      o.retrieveRefreshToken = .ok refresh ∧
      o.getRefreshedToken refresh = .ok user.token := by
  unfold authenticationMiddleware at hup
  cases hid : o.getIdentity with
  | error e =>
    rw [hid] at hup
    exact absurd hup (redirectToAuthorization_ne_upstream cfg user)
  | ok u0 =>
    rw [hid] at hup
    simp only [hskip, Bool.false_eq_true, if_false] at hup
    cases hv : o.verifyToken u0.token with
    | none =>
      rw [hv] at hup
      simp only [HandlerAction.upstream.injEq] at hup
      subst hup
      exact Or.inl hv
    | some err =>
      rw [hv] at hup
      dsimp only at hup
      by_cases herr : err = VerifyError.accessTokenExpired
      · subst herr
        rw [if_neg (fun h => h rfl)] at hup
        by_cases hren : cfg.EnableRefreshTokens = false
        · rw [if_pos hren] at hup
          exact absurd hup (redirectToAuthorization_ne_upstream cfg user)
        · rw [if_neg hren] at hup
          cases hret : o.retrieveRefreshToken with
          | error e =>
            rw [hret] at hup
            exact absurd hup (redirectToAuthorization_ne_upstream cfg user)
          | ok refresh =>
            rw [hret] at hup
            dsimp only at hup
            cases hgex : o.getRefreshedToken refresh with
            | error e =>
              rw [hgex] at hup
              exact absurd hup (redirectToAuthorization_ne_upstream cfg user)
            | ok token =>
              rw [hgex] at hup
              simp only [HandlerAction.upstream.injEq] at hup
              refine Or.inr ⟨u0, refresh, rfl, hv, rfl, ?_⟩
              rw [← hup]
              exact hgex
      · rw [if_pos herr] at hup
        exact absurd hup (accessForbidden_ne_upstream cfg user)

def cfgC1 : Config := { EnableRefreshTokens := true }

def userC1 : userContext := { token := "oldtok" }

def oC1 : AuthOracle :=
  { getIdentity := .ok userC1
    verifyToken := fun t =>
      if t = "oldtok" then some VerifyError.accessTokenExpired
      else some VerifyError.signatureInvalid
    retrieveRefreshToken := .ok "refreshblob"
    getRefreshedToken := fun _ => .ok "newtok"
    getAccessCookieExpiration := fun _ _ => 3600 }

/-- C1 counterexample: with verification on, a concrete successful
silent refresh passes an identity to the next handler whose token fails
verifyToken, refuting the claim that every identity reaching the next
handler carries a token for which verifyToken returned ok. -/
theorem C1_counterexample :
    cfgC1.SkipTokenVerification = false ∧
    (authenticationMiddleware cfgC1 oC1 0).action =
      HandlerAction.upstream { userC1 with token := "newtok" } ∧
    oC1.verifyToken "newtok" = some VerifyError.signatureInvalid := by
  refine ⟨rfl, by decide, by decide⟩

def oC1w : AuthOracle :=
  { getIdentity := .ok userC1
    verifyToken := fun _ => none
    retrieveRefreshToken := .error ()
    getRefreshedToken := fun _ => .error RefreshError.hardFailure
    getAccessCookieExpiration := fun _ _ => 0 }

/-- C1 witness: on a concrete oracle whose token verifies, the identity
passed to the next handler satisfies the amended disjunction. -/
theorem C1_verified_or_refreshed_witness :
    oC1w.verifyToken userC1.token = none ∨
    ∃ u0 refresh, oC1w.getIdentity = .ok u0 ∧
      oC1w.verifyToken u0.token = some VerifyError.accessTokenExpired ∧
      oC1w.retrieveRefreshToken = .ok refresh ∧
      oC1w.getRefreshedToken refresh = .ok userC1.token :=
  C1_verified_or_refreshed cfgC1 oC1w 0 userC1 rfl rfl

/-- C3: for a resource with a non-empty roles set, the admission
middleware admits only identities whose roles contain all of the
resource's roles (AND semantics); when a required role is missing the
response is 403 (when NoRedirects) or a 307 redirect (otherwise) and the
upstream handler is never invoked. -/
theorem C3_roles_and_semantics (cfg : Config) (resource : Resource)
    (user : userContext) (hne : resource.Roles ≠ []) :
    (admissionMiddleware cfg resource user = HandlerAction.upstream user →
      ∀ role ∈ resource.Roles, user.roles.contains role = true) ∧
    ((¬ ∀ role ∈ resource.Roles, user.roles.contains role = true) →
      admissionMiddleware cfg resource user =
        (if cfg.NoRedirects then HandlerAction.status 403
         else HandlerAction.redirect 307 "/oauth/authorize") ∧
      ∀ u2, admissionMiddleware cfg resource user ≠ HandlerAction.upstream u2) := by
  have hlen : resource.Roles.length > 0 := List.length_pos.mpr hne
  constructor
  · intro hup
    unfold admissionMiddleware at hup
    by_cases h1 : cfg.ClientID ≠ "" ∧ user.isAudience cfg.ClientID = false
    · rw [if_pos h1] at hup
      exact absurd hup (accessForbidden_ne_upstream cfg user)
    · rw [if_neg h1] at hup
      by_cases h2 : resource.Roles.length > 0 ∧
          hasRoles resource.Roles user.roles = false
      · rw [if_pos h2] at hup
        exact absurd hup (accessForbidden_ne_upstream cfg user)
      · have hr : hasRoles resource.Roles user.roles = true := by
          rcases Bool.eq_false_or_eq_true (hasRoles resource.Roles user.roles)
            with ht | hf
          · exact ht
          · exact absurd ⟨hlen, hf⟩ h2
        unfold hasRoles at hr
        exact fun role hrole => List.all_eq_true.mp hr role hrole
  · intro hmiss
    have hr : hasRoles resource.Roles user.roles = false := by
      rcases Bool.eq_false_or_eq_true (hasRoles resource.Roles user.roles)
        with ht | hf
      · unfold hasRoles at ht
        exact absurd (fun role hrole => List.all_eq_true.mp ht role hrole) hmiss
      · exact hf
    have hforb : admissionMiddleware cfg resource user = accessForbidden cfg := by
      unfold admissionMiddleware
      by_cases h1 : cfg.ClientID ≠ "" ∧ user.isAudience cfg.ClientID = false
      · rw [if_pos h1]
      · rw [if_neg h1, if_pos ⟨hlen, hr⟩]
    refine ⟨?_, ?_⟩
    · rw [hforb]
      unfold accessForbidden
      rfl
    · intro u2
      rw [hforb]
      exact accessForbidden_ne_upstream cfg u2

def cfgC3 : Config := { NoRedirects := true }

def resourceC3 : Resource := { URL := "/admin", Roles := ["admin"] }

def userC3 : userContext := { token := "tok", roles := ["user"] }

/-- C3 witness: a concrete identity lacking the resource's one required
role is denied with status 403 under NoRedirects and never reaches the
upstream handler. -/
theorem C3_roles_and_semantics_witness :
    (admissionMiddleware cfgC3 resourceC3 userC3 = HandlerAction.upstream userC3 →
      ∀ role ∈ resourceC3.Roles, userC3.roles.contains role = true) ∧
    ((¬ ∀ role ∈ resourceC3.Roles, userC3.roles.contains role = true) →
      admissionMiddleware cfgC3 resourceC3 userC3 =
        (if cfgC3.NoRedirects then HandlerAction.status 403
         else HandlerAction.redirect 307 "/oauth/authorize") ∧
      ∀ u2, admissionMiddleware cfgC3 resourceC3 userC3 ≠ HandlerAction.upstream u2) :=
  C3_roles_and_semantics cfgC3 resourceC3 userC3 (by decide)

/-- C6: the admission middleware admits an identity only if every
configured (claimName, matcher) pair is satisfied; for each configured
pair, a failing check — and by the definition of claimOK that is exactly
a missing claim, a claim that is not a string, or a string the matcher
rejects — produces accessForbidden. -/
theorem C6_claim_matching (cfg : Config) (resource : Resource) (user : userContext) :
    (admissionMiddleware cfg resource user = HandlerAction.upstream user →
      ∀ p ∈ cfg.MatchClaims, claimOK user p.1 p.2 = true) ∧
    (∀ p ∈ cfg.MatchClaims, claimOK user p.1 p.2 = false →
      admissionMiddleware cfg resource user = accessForbidden cfg) ∧
    (∀ nm m, claimOK user nm m =
      match StringClaim user.claims nm with
      | .value s => m s
      | .missing => false
      | .notString => false) := by
  refine ⟨?_, ?_, fun nm m => rfl⟩
  · intro hup
    unfold admissionMiddleware at hup
    by_cases h1 : cfg.ClientID ≠ "" ∧ user.isAudience cfg.ClientID = false
    · rw [if_pos h1] at hup
      exact absurd hup (accessForbidden_ne_upstream cfg user)
    · rw [if_neg h1] at hup
      by_cases h2 : resource.Roles.length > 0 ∧
          hasRoles resource.Roles user.roles = false
      · rw [if_pos h2] at hup
        exact absurd hup (accessForbidden_ne_upstream cfg user)
      · rw [if_neg h2] at hup
        by_cases h3 : (cfg.MatchClaims.all fun p => claimOK user p.1 p.2) = false
        · rw [if_pos h3] at hup
          exact absurd hup (accessForbidden_ne_upstream cfg user)
        · have hall : (cfg.MatchClaims.all fun p => claimOK user p.1 p.2) = true := by
            rcases Bool.eq_false_or_eq_true
              (cfg.MatchClaims.all fun p => claimOK user p.1 p.2) with ht | hf
            · exact ht
            · exact absurd hf h3
          exact fun p hp => List.all_eq_true.mp hall p hp
  · intro p hp hfail
    unfold admissionMiddleware
    by_cases h1 : cfg.ClientID ≠ "" ∧ user.isAudience cfg.ClientID = false
    · rw [if_pos h1]
    · rw [if_neg h1]
      by_cases h2 : resource.Roles.length > 0 ∧
          hasRoles resource.Roles user.roles = false
      · rw [if_pos h2]
      · rw [if_neg h2]
        have h3 : (cfg.MatchClaims.all fun q => claimOK user q.1 q.2) = false := by
          rcases Bool.eq_false_or_eq_true
            (cfg.MatchClaims.all fun q => claimOK user q.1 q.2) with ht | hf
          · exact absurd (List.all_eq_true.mp ht p hp) (by simp [hfail])
          · exact hf
        rw [if_pos h3]

def cfgC4 : Config := {}

def reqC4plain : Request := { isTLS := false, host := "proxy.example.com" }

def reqC4tls : Request := { isTLS := true, host := "proxy.example.com" }

/-- C4: evaluating getRedirectionURL as written at the failing input:
with RedirectionURL unset, no forwarded headers and a NON-TLS
connection the code produces the "https" scheme, and with TLS it
produces "http" — the opposite of the claimed (and intended)
derivation; the forwarded headers are honored above both. -/
theorem C4_scheme_inverted_eval :
    getRedirectionURL cfgC4 reqC4plain = "https://proxy.example.com/oauth/callback" ∧
    getRedirectionURL cfgC4 reqC4tls = "http://proxy.example.com/oauth/callback" ∧
    getRedirectionURL cfgC4
      { reqC4plain with xForwardedProto := "http", xForwardedHost := "fwd.example.com" } =
      "http://fwd.example.com/oauth/callback" := by
  refine ⟨by decide, by decide, by decide⟩

/-- C7 (as amended): the login handler returns 501 when disabled, 400
when username or password is missing, 500 when the OAuth client cannot
be built, 401 when the password grant fails with invalid_grant, 500 on
any other grant failure, 501 (not 500) when the granted access token
cannot be decoded, and on success installs the access cookie and returns
the JSON token body with status 200. -/
theorem C7_login_statuses (cfg : Config) (o : LoginOracle)
    (username password : String) (now : Int) :
    (cfg.EnableLoginHandler = false →
      loginHandler cfg o username password now = { status := 501 }) ∧
    (cfg.EnableLoginHandler = true → (username = "" ∨ password = "") →
      loginHandler cfg o username password now = { status := 400 }) ∧
    (cfg.EnableLoginHandler = true → username ≠ "" → password ≠ "" →
      (o.oauthClient = .error () →
        loginHandler cfg o username password now = { status := 500 }) ∧
      (o.oauthClient = .ok () →
        (o.userCredsToken username password = .error GrantError.invalidGrant →
          loginHandler cfg o username password now = { status := 401 }) ∧
        (o.userCredsToken username password = .error GrantError.otherFailure →
          loginHandler cfg o username password now = { status := 500 }) ∧
        (∀ token, o.userCredsToken username password = .ok token →
          (o.parseToken token.AccessToken = .error () →
            loginHandler cfg o username password now = { status := 501 }) ∧
          (∀ identity, o.parseToken token.AccessToken = .ok identity →
            loginHandler cfg o username password now =
              { status := 200
                body := some token
                droppedAccessCookie :=
                  some (token.AccessToken, identity.expiresAt - now) })))) := by
  refine ⟨fun hdis => ?_, fun hen hmiss => ?_, fun hen hu hp => ⟨fun hcl => ?_, fun hcl => ?_⟩⟩
  · simp [loginHandler, hdis]
  · simp [loginHandler, hen, hmiss]
  · simp [loginHandler, hen, hu, hp, hcl]
  · refine ⟨fun hgrant => ?_, fun hgrant => ?_, fun token hgrant => ⟨fun hparse => ?_,
      fun identity hparse => ?_⟩⟩
    · simp [loginHandler, hen, hu, hp, hcl, hgrant]
    · simp [loginHandler, hen, hu, hp, hcl, hgrant]
    · simp [loginHandler, hen, hu, hp, hcl, hgrant, hparse]
    · simp [loginHandler, hen, hu, hp, hcl, hgrant, hparse]

def cfgC7 : Config := { EnableLoginHandler := true }

def tokC7 : TokenResponse := { AccessToken := "opaqueaccess" }

def oC7 : LoginOracle :=
  { oauthClient := .ok ()
    userCredsToken := fun _ _ => .ok tokC7
    parseToken := fun _ => .error () }

/-- C7 counterexample: with the handler enabled, credentials present and
the password grant succeeding, a failure to decode the granted access
token yields status 501, refuting the claim that every failure other
than disabled/missing-credentials/invalid_grant returns 500. -/
theorem C7_counterexample :
    oC7.userCredsToken "bob" "secret" = .ok tokC7 ∧
    oC7.parseToken tokC7.AccessToken = .error () ∧
    (loginHandler cfgC7 oC7 "bob" "secret" 0).status = 501 ∧
    (loginHandler cfgC7 oC7 "bob" "secret" 0).status ≠ 500 :=
  ⟨rfl, rfl, rfl, by decide⟩

/-- C8: in the callback handler, with refresh tokens enabled, the store
not in use and the encrypted refresh blob ready, a refresh token that
does not parse as a JWT is non-fatal — the encrypted blob is still
dropped as the refresh cookie with the 240-hour (864000 seconds) default
lifetime and the handler still redirects — while a parseable refresh
token yields a cookie lifetime of its expiry minus the current time. -/
theorem C8_refresh_cookie_fallback (cfg : Config) (o : CallbackOracle)
    (now : Int) (code stateParam : String) (resp : TokenResponse)
    (idPair : String × TokenIdentity) (encrypted : String)
    (hskip : cfg.SkipTokenVerification = false)
    (hcode : code ≠ "")
    (hclient : o.getOAuthClient = .ok ())
    (hex : o.exchangeCode code = .ok resp)
    (hparse : o.parseToken resp.IDToken = .ok idPair)
    (hverify : o.verifyToken idPair.1 = none)
    (hren : cfg.EnableRefreshTokens = true)
    (hrt : resp.RefreshToken ≠ "")
    (henc : o.encodeText resp.RefreshToken cfg.EncryptionKey = .ok encrypted)
    (hstore : o.useStore = false) :
    (o.parseToken resp.RefreshToken = .error () →
      (oauthCallbackHandler cfg o now code stateParam).droppedRefreshCookie =
        some (encrypted, 864000) ∧
      ∃ loc, (oauthCallbackHandler cfg o now code stateParam).action =
        HandlerAction.redirect 307 loc) ∧
    (∀ refreshPair, o.parseToken resp.RefreshToken = .ok refreshPair →
      (oauthCallbackHandler cfg o now code stateParam).droppedRefreshCookie =
        some (encrypted, refreshPair.2.expiresAt - now)) := by
  have hmain : ∀ rp : Except Unit (String × TokenIdentity),
      o.parseToken resp.RefreshToken = rp →
      (oauthCallbackHandler cfg o now code stateParam).droppedRefreshCookie =
        (match rp with
         | .error _ => some (encrypted, 864000)
         | .ok refreshPair => some (encrypted, refreshPair.2.expiresAt - now)) ∧
      ∃ loc, (oauthCallbackHandler cfg o now code stateParam).action =
        HandlerAction.redirect 307 loc := by
    intro rp hrp
    cases rp <;>
      cases hap : o.parseToken resp.AccessToken <;>
        simp [oauthCallbackHandler, hskip, hcode, hclient, hex, hparse, hverify,
          hren, hrt, henc, hstore, hrp, hap]
  refine ⟨fun hrp => (hmain (.error ()) hrp), fun refreshPair hrp => ?_⟩
  exact ((hmain (.ok refreshPair) hrp).1)

def cfgC8 : Config := { EnableRefreshTokens := true, EncryptionKey := "0123456789abcdef" }

def respC8 : TokenResponse :=
  { IDToken := "idtok", AccessToken := "acctok", RefreshToken := "opaquerefresh" }

def oC8 : CallbackOracle :=
  { getOAuthClient := .ok ()
    exchangeCode := fun _ => .ok respC8
    parseToken := fun t =>
      if t = "idtok" then .ok ("idtok", { expiresAt := 900 })
      else if t = "acctok" then .ok ("acctok", { expiresAt := 600 })
      else .error ()
    verifyToken := fun _ => none
    encodeText := fun _ _ => .ok "ciphertext"
    getAccessCookieExpiration := fun _ _ => 600
    decodeBase64 := fun _ => .error () }

/-- C8 witness: a concrete opaque (unparseable) refresh token still gets
its encrypted blob dropped as the refresh cookie with the 864000-second
default lifetime, and the handler still redirects. -/
theorem C8_refresh_cookie_fallback_witness :
    (oC8.parseToken respC8.RefreshToken = .error () →
      (oauthCallbackHandler cfgC8 oC8 0 "authcode" "").droppedRefreshCookie =
        some ("ciphertext", 864000) ∧
      ∃ loc, (oauthCallbackHandler cfgC8 oC8 0 "authcode" "").action =
        HandlerAction.redirect 307 loc) ∧
    (∀ refreshPair, oC8.parseToken respC8.RefreshToken = .ok refreshPair →
      (oauthCallbackHandler cfgC8 oC8 0 "authcode" "").droppedRefreshCookie =
        some ("ciphertext", refreshPair.2.expiresAt - 0)) :=
  C8_refresh_cookie_fallback cfgC8 oC8 0 "authcode" "" respC8
    ("idtok", { expiresAt := 900 }) "ciphertext"
    rfl (by decide) rfl rfl rfl rfl rfl (by decide) rfl rfl

/-- C9: the expiration endpoint answers 200 exactly when a valid,
unexpired identity is extracted from the request, and 401 in every
other case (extraction failure or an expired identity). -/
theorem C9_expired_iff (g : Except Unit userContext) (now : Int) :
    (expirationHandler g now = 200 ↔
      ∃ u, g = .ok u ∧ u.isExpired now = false) ∧
    (expirationHandler g now = 200 ∨ expirationHandler g now = 401) := by
  cases g with
  | error e => simp [expirationHandler]
  | ok u =>
    by_cases h : u.isExpired now = true
    · simp [expirationHandler, h]
    · have hf := Bool.not_eq_true (u.isExpired now) |>.mp h
      simp [expirationHandler, hf]

/-- C10: with SkipTokenVerification enabled, the authorization and the
callback handlers both answer 406 Not Acceptable immediately, for every
oracle (so without any IdP interaction) and without mutating any cookie
or store entry. -/
theorem C10_skip_not_acceptable (cfg : Config) (ao : AuthzOracle)
    (co : CallbackOracle) (now : Int) (stateA code stateC : String)
    (hskip : cfg.SkipTokenVerification = true) :
    oauthAuthorizationHandler cfg ao stateA = HandlerAction.status 406 ∧
    oauthCallbackHandler cfg co now code stateC =
      { action := HandlerAction.status 406
        droppedAccessCookie := none
        droppedRefreshCookie := none
        storedRefreshToken := none } := by
  constructor
  · simp [oauthAuthorizationHandler, hskip]
  · simp [oauthCallbackHandler, hskip]

def cfgC10 : Config := { SkipTokenVerification := true }

def aoC10 : AuthzOracle :=
  { getOAuthClient := .ok ()
    authCodeURL := fun _ _ => "https://idp.example.com/auth" }

def coC10 : CallbackOracle :=
  { getOAuthClient := .ok ()
    exchangeCode := fun _ => .ok {}
    parseToken := fun _ => .error ()
    verifyToken := fun _ => none
    encodeText := fun _ _ => .error ()
    getAccessCookieExpiration := fun _ _ => 0
    decodeBase64 := fun _ => .error () }

/-- C10 witness: a concrete configuration with verification skipped
answers 406 on both endpoints with no cookie or store mutation. -/
theorem C10_skip_not_acceptable_witness :
    oauthAuthorizationHandler cfgC10 aoC10 "st" = HandlerAction.status 406 ∧
    oauthCallbackHandler cfgC10 coC10 0 "code" "st" =
      { action := HandlerAction.status 406
        droppedAccessCookie := none
        droppedRefreshCookie := none
        storedRefreshToken := none } :=
  C10_skip_not_acceptable cfgC10 aoC10 coC10 0 "st" "code" "st" rfl

end KP
